import Mathlib

/-!
Verification of the `munsell` Go package (`munsell.go`): classification of an
RGB color, given as a hex string or an RGB triple, into a small fixed set of
named color categories by converting RGB to HSL and applying threshold rules.

Modelling conventions for the shallow embedding:

* Go `float64` arithmetic is embedded as exact rational arithmetic (`ℚ`);
  every step of the pipeline (division by 255, `math.Max`/`math.Min`, the
  piecewise hue formula, `math.Floor`) is the corresponding exact operation.
  `math.Floor` followed by float comparisons against integer literals is
  embedded as `Int.floor` followed by integer comparisons.
* Go strings are embedded as `String`/`List Char`.  All characters the code
  ever inspects (`#` and hex digits) are ASCII, where Go's byte indexing and
  character indexing agree.
* `uint8` channel values are embedded as `Nat` (theorems are proved for all
  naturals, which covers all values in `[0,255]`).
* A Go function that can `panic` is embedded with an explicit crash outcome
  (`Except.error` inside `getRGBFromHex`, the `HexResult.crash` constructor
  at the API boundary); `strconv.ParseUint(s, 16, 8)` on a two-character
  slice is embedded as `parseHexPair` (its value `16*hi+lo ≤ 255` always
  fits in 8 bits, so the bit-size check never fires).
-/

namespace Munsell

/-- `type Color int` with its ten constants, in `iota` order. -/
inductive Color where
  | Unknown
  | White
  | Black
  | Red
  | Orange
  | Yellow
  | Green
  | LightBlue
  | Blue
  | Purple
deriving DecidableEq, Repr

/-- `RGBComponents`: three `uint8` fields `Red`, `Green`, `Blue`. -/
structure RGBComponents where
  Red : Nat
  Green : Nat
  Blue : Nat
deriving DecidableEq, Repr

/-- `HSLComponents`: three `float64` fields `Hue`, `Saturation`, `Lightness`. -/
structure HSLComponents where
  Hue : ℚ
  Saturation : ℚ
  Lightness : ℚ
deriving DecidableEq, Repr

/-- The numeric value of one hex digit as accepted by `strconv.ParseUint`
with base 16: `0-9`, `a-f`, `A-F`; `none` on any other character. -/
def hexVal (ch : Char) : Option Nat :=
  if '0' ≤ ch ∧ ch ≤ '9' then some (ch.toNat - '0'.toNat)
  else if 'a' ≤ ch ∧ ch ≤ 'f' then some (ch.toNat - 'a'.toNat + 10)
  else if 'A' ≤ ch ∧ ch ≤ 'F' then some (ch.toNat - 'A'.toNat + 10)
  else none

/-- `strconv.ParseUint(s, 16, 8)` on a two-character slice: both characters
must be hex digits, and the resulting value is `16*hi + lo`. -/
def parseHexPair (hi lo : Char) : Option Nat :=
  match hexVal hi, hexVal lo with
  | some a, some b => some (16 * a + b)
  | _, _ => none

/-- `getRGBFromHex`: parses the three leading 2-digit pairs of a 6-character
hex string, in the source's order red, green, blue.  A parse failure is Go's
`panic(err)`, embedded as `Except.error` carrying the offending slice; the
catch-all branch models the slice-bounds panic on inputs shorter than six
characters (never reached from `GetColorFromHex`). -/
def getRGBFromHex (hexColor : List Char) : Except String RGBComponents :=
  match hexColor with
  | c1 :: c2 :: c3 :: c4 :: c5 :: c6 :: _ =>
    match parseHexPair c1 c2 with
    | none => Except.error (String.mk [c1, c2])
    | some red =>
      match parseHexPair c3 c4 with
      | none => Except.error (String.mk [c3, c4])
      | some green =>
        match parseHexPair c5 c6 with
        | none => Except.error (String.mk [c5, c6])
        | some blue => Except.ok ⟨red, green, blue⟩
  | _ => Except.error (String.mk hexColor)

/-- `getHSLFromRGB`, the RGB to HSL conversion (`float64` embedded as `ℚ`).
Go's `switch max` compares `max` against `r`, then `g`, then `b`, in that
order; its constant expressions `360/60`, `float64(120/60)`, `float64(240/60)`
are exactly `6`, `2`, `4`.  A `switch` in which no case matched leaves
`hue = 0` (that branch is mathematically unreachable since `max` equals one
of the three channels). -/
def getHSLFromRGB (rgb : RGBComponents) : HSLComponents :=
  let r : ℚ := (rgb.Red : ℚ) / 255
  let g : ℚ := (rgb.Green : ℚ) / 255
  let b : ℚ := (rgb.Blue : ℚ) / 255
  let mx : ℚ := max (max r g) b
  let mn : ℚ := min (min r g) b
  let c : ℚ := mx - mn
  let hue : ℚ :=
    if c = 0 then 0
    else if mx = r then
      let segment : ℚ := (g - b) / c
      let shift : ℚ := if segment < 0 then 6 else 0
      segment + shift
    else if mx = g then
      let segment : ℚ := (b - r) / c
      segment + 2
    else if mx = b then
      let segment : ℚ := (r - g) / c
      segment + 4
    else 0
  { Hue := hue * 60, Saturation := c * 100, Lightness := (mx + mn) * 50 }

/-- `matchColorFromHSL`: `math.Floor` of each component, then the ordered
rule chain.  The inner `s < 90` branches of the Orange and Yellow rules both
return the same label, exactly as in the source. -/
def matchColorFromHSL (hsl : HSLComponents) : Color :=
  let l : ℤ := ⌊hsl.Lightness⌋
  let s : ℤ := ⌊hsl.Saturation⌋
  let h : ℤ := ⌊hsl.Hue⌋
  if s ≤ 10 ∧ l ≥ 90 then Color.White
  else if l ≤ 13 then Color.Black
  else if (s ≤ 10 ∧ l ≤ 70) ∨ s = 0 then Color.Black
  else if (h ≥ 0 ∧ h ≤ 16) ∨ h ≥ 346 then Color.Red
  else if h > 16 ∧ h ≤ 36 then if s < 90 then Color.Orange else Color.Orange
  else if h > 36 ∧ h ≤ 64 then if s < 90 then Color.Yellow else Color.Yellow
  else if h > 64 ∧ h ≤ 165 then Color.Green
  else if h > 165 ∧ h ≤ 208 then Color.LightBlue
  else if h > 208 ∧ h ≤ 260 then Color.Blue
  else if h > 260 ∧ h ≤ 290 then Color.Purple
  else if h > 290 ∧ h ≤ 345 then Color.Purple
  else Color.Unknown

/-- `GetColorFromRGB`: convert to HSL, then classify. -/
def GetColorFromRGB (rgb : RGBComponents) : Color :=
  matchColorFromHSL (getHSLFromRGB rgb)

/-- `GetColorFromHSL`: classify directly. -/
def GetColorFromHSL (hsl : HSLComponents) : Color :=
  matchColorFromHSL hsl

/-- Outcome of `GetColorFromHex`, whose Go signature is `(Color, error)` but
which can also terminate the process: `ok c` is `(c, nil)`; `err c msg` is
`(c, error(msg))`; `crash s` is abnormal termination — a `panic(err)` raised
inside `getRGBFromHex`, or the index-out-of-range on `hexColor[0]` — with
`s` the offending slice. -/
inductive HexResult where
  | ok (c : Color)
  | err (c : Color) (msg : String)
  | crash (culprit : String)
deriving DecidableEq, Repr

/-- `GetColorFromHex`: reads `hexColor[0]` unconditionally (on the empty
string this is an index-out-of-range crash), strips one leading `#`, then
switches on the remaining length: 3 doubles each character and parses, 6
parses directly, 8 parses only the first six characters, and any other
length returns `(Unknown, error)` reporting the stripped input. -/
def GetColorFromHex (hexColor : String) : HexResult :=
  match hexColor.data with
  | [] => HexResult.crash hexColor
  | c0 :: rest =>
    let chars := if c0 = '#' then rest else c0 :: rest
    match chars with
    | [a, b, c] =>
      match getRGBFromHex [a, a, b, b, c, c] with
      | Except.ok rgb => HexResult.ok (GetColorFromRGB rgb)
      | Except.error pair => HexResult.crash pair
    | [a, b, c, d, e, f] =>
      match getRGBFromHex [a, b, c, d, e, f] with
      | Except.ok rgb => HexResult.ok (GetColorFromRGB rgb)
      | Except.error pair => HexResult.crash pair
    | [a, b, c, d, e, f, _, _] =>
      match getRGBFromHex [a, b, c, d, e, f] with
      | Except.ok rgb => HexResult.ok (GetColorFromRGB rgb)
      | Except.error pair => HexResult.crash pair
    | other => HexResult.err Color.Unknown ("invalid hex color code: " ++ String.mk other)

/-- Written from the spec's words, for the refinement claim: a hex digit is
`0-9`, `a-f` or `A-F` ("parsing is case-insensitive"), with its usual value;
any other character has no value here (junk value `0`, guarded by
`specIsHexDigit` in every use). -/
def specHexDigitVal (ch : Char) : Nat :=
  if '0' ≤ ch ∧ ch ≤ '9' then ch.toNat - '0'.toNat
  else if 'a' ≤ ch ∧ ch ≤ 'f' then ch.toNat - 'a'.toNat + 10
  else if 'A' ≤ ch ∧ ch ≤ 'F' then ch.toNat - 'A'.toNat + 10
  else 0

/-- Written from the spec's words: whether a character is a hex digit
(case-insensitive). -/
def specIsHexDigit (ch : Char) : Bool :=
  decide (('0' ≤ ch ∧ ch ≤ '9') ∨ ('a' ≤ ch ∧ ch ≤ 'f') ∨ ('A' ≤ ch ∧ ch ≤ 'F'))

/-- Written from the spec's words: "Each 2-digit hex pair must parse as a
base-16 unsigned integer in [0,255]" — the manually decoded byte of a hex
pair. -/
def specHexByte (hi lo : Char) : Nat :=
  16 * specHexDigitVal hi + specHexDigitVal lo

theorem hexVal_of_spec (ch : Char) (h : specIsHexDigit ch = true) :
    hexVal ch = some (specHexDigitVal ch) := by
  unfold specIsHexDigit at h
  unfold hexVal specHexDigitVal
  split_ifs <;> simp_all

theorem spec_hex_ne_hash (ch : Char) (h : specIsHexDigit ch = true) : ch ≠ '#' := by
  intro he
  subst he
  exact absurd h (by decide)

theorem hexVal_ne_hash (ch : Char) (a : Nat) (h : hexVal ch = some a) : ch ≠ '#' := by
  intro he
  subst he
  simp [hexVal] at h

theorem segment_div_bounds {x y mx mn : ℚ} (hx1 : mn ≤ x) (hx2 : x ≤ mx)
    (hy1 : mn ≤ y) (hy2 : y ≤ mx) (hc : mx - mn ≠ 0) :
    -1 ≤ (x - y) / (mx - mn) ∧ (x - y) / (mx - mn) ≤ 1 := by
  have hpos : 0 < mx - mn := by
    rcases lt_or_eq_of_le (by linarith : (0 : ℚ) ≤ mx - mn) with h | h
    · exact h
    · exact absurd h.symm hc
  constructor
  · rw [le_div_iff₀ hpos]
    linarith
  · rw [div_le_one hpos]
    linarith

theorem getHSL_hue_bounds (rgb : RGBComponents) :
    0 ≤ (getHSLFromRGB rgb).Hue ∧ (getHSLFromRGB rgb).Hue < 360 := by
  obtain ⟨R, G, B⟩ := rgb
  simp only [getHSLFromRGB]
  set r : ℚ := (R : ℚ) / 255 with hr
  set g : ℚ := (G : ℚ) / 255 with hg
  set b : ℚ := (B : ℚ) / 255 with hb
  have h1 : r ≤ max (max r g) b := le_trans (le_max_left r g) (le_max_left _ _)
  have h2 : g ≤ max (max r g) b := le_trans (le_max_right r g) (le_max_left _ _)
  have h3 : b ≤ max (max r g) b := le_max_right _ _
  have h4 : min (min r g) b ≤ r := le_trans (min_le_left _ _) (min_le_left r g)
  have h5 : min (min r g) b ≤ g := le_trans (min_le_left _ _) (min_le_right r g)
  have h6 : min (min r g) b ≤ b := min_le_right _ _
  set mx : ℚ := max (max r g) b with hmx
  set mn : ℚ := min (min r g) b with hmn
  by_cases hc : mx - mn = 0
  · rw [if_pos hc]
    norm_num
  · rw [if_neg hc]
    by_cases hmr : mx = r
    · rw [if_pos hmr]
      obtain ⟨hs1, hs2⟩ := segment_div_bounds h5 h2 h6 h3 hc
      by_cases hseg : (g - b) / (mx - mn) < 0
      · rw [if_pos hseg]
        constructor <;> linarith
      · rw [if_neg hseg]
        push_neg at hseg
        constructor <;> linarith
    · rw [if_neg hmr]
      by_cases hmg : mx = g
      · rw [if_pos hmg]
        obtain ⟨hs1, hs2⟩ := segment_div_bounds h6 h3 h4 h1 hc
        constructor <;> linarith
      · rw [if_neg hmg]
        by_cases hmb : mx = b
        · rw [if_pos hmb]
          obtain ⟨hs1, hs2⟩ := segment_div_bounds h4 h1 h5 h2 hc
          constructor <;> linarith
        · rw [if_neg hmb]
          norm_num

set_option maxHeartbeats 1000000 in
theorem match_in_range_not_unknown (hsl : HSLComponents) (h0 : 0 ≤ hsl.Hue)
    (h1 : hsl.Hue < 360) :
    matchColorFromHSL hsl ∈
      [Color.White, Color.Black, Color.Red, Color.Orange, Color.Yellow,
       Color.Green, Color.LightBlue, Color.Blue, Color.Purple] := by
  have hf0 : (0 : ℤ) ≤ ⌊hsl.Hue⌋ := Int.floor_nonneg.mpr h0
  have hf1 : ⌊hsl.Hue⌋ < 360 := Int.floor_lt.mpr (by exact_mod_cast h1)
  unfold matchColorFromHSL
  dsimp only
  split_ifs <;> first | decide | omega

/-- C1: the claim says a non-hex digit among the consumed digits yields an
InvalidFormat error and never terminates the process; the code instead
reaches `panic(err)` in `getRGBFromHex`.  This theorem evaluates the code at
failing inputs covering the 3-, 6- and 8-digit forms: each one crashes on
its first bad consumed pair. -/
theorem hex_bad_digit_crashes :
    GetColorFromHex "zzzzzz" = HexResult.crash "zz" ∧
      GetColorFromHex "#zzz" = HexResult.crash "zz" ∧
      GetColorFromHex "0zff0000" = HexResult.crash "0z" := by
  refine ⟨by decide, by decide, by decide⟩

/-- C2: the claim says every input whose stripped length is not 3, 6 or 8 —
including the empty string — yields an InvalidFormat error and never crashes;
the code indexes `hexColor[0]` before any length check, so the empty string
crashes with an index-out-of-range panic.  The other invalid lengths named by
the spec do return `(Unknown, error)` as claimed. -/
theorem hex_empty_crashes :
    GetColorFromHex "" = HexResult.crash "" ∧
      GetColorFromHex "#12" = HexResult.err Color.Unknown "invalid hex color code: 12" ∧
      GetColorFromHex "#12345" = HexResult.err Color.Unknown "invalid hex color code: 12345" := by
  refine ⟨by decide, by decide, by decide⟩

/-- C3: for every RGB triple, `GetColorFromRGB` returns one of the nine named
colors and never the `Unknown` default: the hue produced by `getHSLFromRGB`
lies in `[0,360)`, so after flooring one of the classifier's rules 1-11
always matches.  Proved for all natural channel values, which covers all
`2^24` 8-bit triples. -/
theorem rgb_never_unknown (r g b : Nat) :
    GetColorFromRGB ⟨r, g, b⟩ ∈
      [Color.White, Color.Black, Color.Red, Color.Orange, Color.Yellow,
       Color.Green, Color.LightBlue, Color.Blue, Color.Purple] := by
  obtain ⟨h0, h1⟩ := getHSL_hue_bounds ⟨r, g, b⟩
  unfold GetColorFromRGB
  exact match_in_range_not_unknown _ h0 h1

/-- C4: for every valid 6-digit hex string, with or without a leading `#`,
`GetColorFromHex` succeeds and returns exactly `GetColorFromRGB` applied to
the triple obtained by decoding each 2-digit hex pair as a base-16 byte,
where the decoding (`specHexByte`) is written from the spec's words. -/
theorem hex6_refines_rgb (pre : List Char) (d1 d2 d3 d4 d5 d6 : Char)
    (hpre : pre = [] ∨ pre = ['#'])
    (h1 : specIsHexDigit d1 = true) (h2 : specIsHexDigit d2 = true)
    (h3 : specIsHexDigit d3 = true) (h4 : specIsHexDigit d4 = true)
    (h5 : specIsHexDigit d5 = true) (h6 : specIsHexDigit d6 = true) :
    GetColorFromHex (String.mk (pre ++ [d1, d2, d3, d4, d5, d6])) =
      HexResult.ok (GetColorFromRGB
        ⟨specHexByte d1 d2, specHexByte d3 d4, specHexByte d5 d6⟩) := by
  have e1 := hexVal_of_spec d1 h1
  have e2 := hexVal_of_spec d2 h2
  have e3 := hexVal_of_spec d3 h3
  have e4 := hexVal_of_spec d4 h4
  have e5 := hexVal_of_spec d5 h5
  have e6 := hexVal_of_spec d6 h6
  have hne := spec_hex_ne_hash d1 h1
  rcases hpre with rfl | rfl
  · simp [GetColorFromHex, getRGBFromHex, parseHexPair, hne, e1, e2, e3, e4, e5, e6, specHexByte]
  · simp [GetColorFromHex, getRGBFromHex, parseHexPair, e1, e2, e3, e4, e5, e6, specHexByte]

theorem hex6_refines_rgb_witness :
    specIsHexDigit '0' = true ∧ specIsHexDigit 'f' = true ∧
      GetColorFromHex "#00ff00" =
        HexResult.ok (GetColorFromRGB
          ⟨specHexByte '0' '0', specHexByte 'f' 'f', specHexByte '0' '0'⟩) :=
  ⟨by decide, by decide,
    hex6_refines_rgb ['#'] '0' '0' 'f' 'f' '0' '0' (Or.inr rfl) (by decide) (by decide)
      (by decide) (by decide) (by decide) (by decide)⟩

/-- C5: a 3-character shorthand hex string, with or without a leading `#`,
produces exactly the same `HexResult` — same Color, same error, and on bad
digits even the same crash — as the 6-character string formed by doubling
each character.  The first character is required not to be `#` so that the
three characters really are the payload after the optional `#`. -/
theorem hex3_doubles (pre : List Char) (a b c : Char)
    (hpre : pre = [] ∨ pre = ['#']) (ha : a ≠ '#') :
    GetColorFromHex (String.mk (pre ++ [a, b, c])) =
      GetColorFromHex (String.mk (pre ++ [a, a, b, b, c, c])) := by
  rcases hpre with rfl | rfl
  · simp [GetColorFromHex, ha]
  · simp [GetColorFromHex]

theorem hex3_doubles_witness :
    (['#'] = ([] : List Char) ∨ ['#'] = ['#']) ∧ ('0' : Char) ≠ '#' ∧
      GetColorFromHex "#0f0" = GetColorFromHex "#00ff00" :=
  ⟨Or.inr rfl, by decide, hex3_doubles ['#'] '0' 'f' '0' (Or.inr rfl) (by decide)⟩

/-- C6: an 8-character hex string, with or without a leading `#`, produces
exactly the same `HexResult` as its first six characters alone: the trailing
alpha byte is discarded unread. -/
theorem hex8_ignores_alpha (pre : List Char) (d1 d2 d3 d4 d5 d6 d7 d8 : Char)
    (hpre : pre = [] ∨ pre = ['#']) (hne : d1 ≠ '#') :
    GetColorFromHex (String.mk (pre ++ [d1, d2, d3, d4, d5, d6, d7, d8])) =
      GetColorFromHex (String.mk (pre ++ [d1, d2, d3, d4, d5, d6])) := by
  rcases hpre with rfl | rfl
  · simp [GetColorFromHex, hne]
  · simp [GetColorFromHex]

theorem hex8_ignores_alpha_witness :
    (['#'] = ([] : List Char) ∨ ['#'] = ['#']) ∧ ('0' : Char) ≠ '#' ∧
      GetColorFromHex "#00ff0080" = GetColorFromHex "#00ff00" :=
  ⟨Or.inr rfl, by decide,
    hex8_ignores_alpha ['#'] '0' '0' 'f' 'f' '0' '0' '8' '0' (Or.inr rfl) (by decide)⟩

/-- C7: the spec's concrete conversion anchors: black maps to HSL (0,0,0) and
classifies Black; white maps to saturation 0, lightness 100 (and hue 0) and
classifies White; pure red maps to hue 0, saturation 100, lightness 50 and
classifies Red. -/
theorem conversion_anchors :
    getHSLFromRGB ⟨0, 0, 0⟩ = ⟨0, 0, 0⟩ ∧
      getHSLFromRGB ⟨255, 255, 255⟩ = ⟨0, 0, 100⟩ ∧
      getHSLFromRGB ⟨255, 0, 0⟩ = ⟨0, 100, 50⟩ ∧
      GetColorFromRGB ⟨0, 0, 0⟩ = Color.Black ∧
      GetColorFromRGB ⟨255, 255, 255⟩ = Color.White ∧
      GetColorFromRGB ⟨255, 0, 0⟩ = Color.Red := by
  have k1 : getHSLFromRGB ⟨0, 0, 0⟩ = ⟨0, 0, 0⟩ := by
    norm_num [getHSLFromRGB, max_def, min_def]
  have k2 : getHSLFromRGB ⟨255, 255, 255⟩ = ⟨0, 0, 100⟩ := by
    norm_num [getHSLFromRGB, max_def, min_def]
  have k3 : getHSLFromRGB ⟨255, 0, 0⟩ = ⟨0, 100, 50⟩ := by
    norm_num [getHSLFromRGB, max_def, min_def]
  have m1 : matchColorFromHSL ⟨0, 0, 0⟩ = Color.Black := by
    norm_num [matchColorFromHSL]
  have m2 : matchColorFromHSL ⟨0, 0, 100⟩ = Color.White := by
    norm_num [matchColorFromHSL]
  have m3 : matchColorFromHSL ⟨0, 100, 50⟩ = Color.Red := by
    norm_num [matchColorFromHSL]
  refine ⟨k1, k2, k3, ?_, ?_, ?_⟩
  · unfold GetColorFromRGB
    rw [k1]
    exact m1
  · unfold GetColorFromRGB
    rw [k2]
    exact m2
  · unfold GetColorFromRGB
    rw [k3]
    exact m3

set_option maxHeartbeats 1000000 in
/-- C8: for saturation and lightness that do not trigger the White or Black
rules, the classifier maps floored hue 16 to Red, 17 to Orange, 346 to Red
and 345 to Purple.  The unstated saturation/lightness context is quantified:
any values whose floors fail rules 1-3. -/
theorem hue_boundaries (s l : ℚ)
    (hw : ¬ (⌊s⌋ ≤ 10 ∧ ⌊l⌋ ≥ 90))
    (hb1 : ¬ (⌊l⌋ ≤ 13))
    (hb2 : ¬ ((⌊s⌋ ≤ 10 ∧ ⌊l⌋ ≤ 70) ∨ ⌊s⌋ = 0)) :
    GetColorFromHSL ⟨16, s, l⟩ = Color.Red ∧
      GetColorFromHSL ⟨17, s, l⟩ = Color.Orange ∧
      GetColorFromHSL ⟨346, s, l⟩ = Color.Red ∧
      GetColorFromHSL ⟨345, s, l⟩ = Color.Purple := by
  refine ⟨?_, ?_, ?_, ?_⟩
  · unfold GetColorFromHSL matchColorFromHSL
    dsimp only
    rw [show ⌊(16 : ℚ)⌋ = 16 from by norm_num]
    split_ifs <;> first | rfl | omega
  · unfold GetColorFromHSL matchColorFromHSL
    dsimp only
    rw [show ⌊(17 : ℚ)⌋ = 17 from by norm_num]
    split_ifs <;> first | rfl | omega
  · unfold GetColorFromHSL matchColorFromHSL
    dsimp only
    rw [show ⌊(346 : ℚ)⌋ = 346 from by norm_num]
    split_ifs <;> first | rfl | omega
  · unfold GetColorFromHSL matchColorFromHSL
    dsimp only
    rw [show ⌊(345 : ℚ)⌋ = 345 from by norm_num]
    split_ifs <;> first | rfl | omega

theorem hue_boundaries_witness :
    (¬ (⌊(100 : ℚ)⌋ ≤ 10 ∧ ⌊(50 : ℚ)⌋ ≥ 90)) ∧
      (¬ (⌊(50 : ℚ)⌋ ≤ 13)) ∧
      (¬ ((⌊(100 : ℚ)⌋ ≤ 10 ∧ ⌊(50 : ℚ)⌋ ≤ 70) ∨ ⌊(100 : ℚ)⌋ = 0)) ∧
      (GetColorFromHSL ⟨16, 100, 50⟩ = Color.Red ∧
        GetColorFromHSL ⟨17, 100, 50⟩ = Color.Orange ∧
        GetColorFromHSL ⟨346, 100, 50⟩ = Color.Red ∧
        GetColorFromHSL ⟨345, 100, 50⟩ = Color.Purple) :=
  ⟨by decide, by decide, by decide,
    hue_boundaries 100 50 (by decide) (by decide) (by decide)⟩

set_option maxHeartbeats 1000000 in
/-- C9 counterexample: the claim says hue outside `[0,360)` (with saturation
100 and lightness 50) degrades to the `Unknown` default, but at hue 360 —
outside `[0,360)` — the `h ≥ 346` wraparound rule fires and the classifier
returns Red, not Unknown. -/
theorem hue360_red_counterexample : GetColorFromHSL ⟨360, 100, 50⟩ = Color.Red := by
  norm_num [GetColorFromHSL, matchColorFromHSL]

set_option maxHeartbeats 1000000 in
/-- C9 amended: `GetColorFromHSL` is total by type, and for hue below 0 —
the only out-of-range side the rule chain leaves unmatched — with saturation
and lightness not triggering the White/Black rules, classification falls
through every rule to the final `Unknown` default (hue at or above 360 is
instead captured by the `h ≥ 346` Red rule). -/
theorem negative_hue_unknown (h s l : ℚ) (hneg : h < 0)
    (hw : ¬ (⌊s⌋ ≤ 10 ∧ ⌊l⌋ ≥ 90))
    (hb1 : ¬ (⌊l⌋ ≤ 13))
    (hb2 : ¬ ((⌊s⌋ ≤ 10 ∧ ⌊l⌋ ≤ 70) ∨ ⌊s⌋ = 0)) :
    GetColorFromHSL ⟨h, s, l⟩ = Color.Unknown := by
  have hf : ⌊h⌋ < 0 := Int.floor_lt.mpr (by exact_mod_cast hneg)
  unfold GetColorFromHSL matchColorFromHSL
  dsimp only
  split_ifs <;> first | rfl | omega

theorem negative_hue_unknown_witness :
    ((-1 : ℚ) < 0) ∧
      (¬ (⌊(100 : ℚ)⌋ ≤ 10 ∧ ⌊(50 : ℚ)⌋ ≥ 90)) ∧
      (¬ (⌊(50 : ℚ)⌋ ≤ 13)) ∧
      (¬ ((⌊(100 : ℚ)⌋ ≤ 10 ∧ ⌊(50 : ℚ)⌋ ≤ 70) ∨ ⌊(100 : ℚ)⌋ = 0)) ∧
      GetColorFromHSL ⟨-1, 100, 50⟩ = Color.Unknown :=
  ⟨by norm_num, by decide, by decide, by decide,
    negative_hue_unknown (-1) 100 50 (by norm_num) (by decide) (by decide) (by decide)⟩

/-- C10: for every 8-character input (with or without a leading `#`) whose
first six characters are valid hex digits, `GetColorFromHex` returns a Color
with a nil error whatever the final two characters are: the alpha byte is
never parsed or validated. -/
theorem alpha_never_validated (pre : List Char) (d1 d2 d3 d4 d5 d6 x y : Char)
    (a1 a2 a3 a4 a5 a6 : Nat)
    (hpre : pre = [] ∨ pre = ['#'])
    (e1 : hexVal d1 = some a1) (e2 : hexVal d2 = some a2)
    (e3 : hexVal d3 = some a3) (e4 : hexVal d4 = some a4)
    (e5 : hexVal d5 = some a5) (e6 : hexVal d6 = some a6) :
    GetColorFromHex (String.mk (pre ++ [d1, d2, d3, d4, d5, d6, x, y])) =
      HexResult.ok (GetColorFromRGB ⟨16 * a1 + a2, 16 * a3 + a4, 16 * a5 + a6⟩) := by
  have hne := hexVal_ne_hash d1 a1 e1
  rcases hpre with rfl | rfl
  · simp [GetColorFromHex, getRGBFromHex, parseHexPair, hne, e1, e2, e3, e4, e5, e6]
  · simp [GetColorFromHex, getRGBFromHex, parseHexPair, e1, e2, e3, e4, e5, e6]

theorem alpha_never_validated_witness :
    hexVal '0' = some 0 ∧ hexVal 'f' = some 15 ∧
      GetColorFromHex "00ff00Z!" =
        HexResult.ok (GetColorFromRGB ⟨16 * 0 + 0, 16 * 15 + 15, 16 * 0 + 0⟩) :=
  ⟨by decide, by decide,
    alpha_never_validated [] '0' '0' 'f' 'f' '0' '0' 'Z' '!' 0 0 15 15 0 0 (Or.inl rfl)
      (by decide) (by decide) (by decide) (by decide) (by decide) (by decide)⟩

end Munsell
